import Mathlib

/-!
Verification of the row-to-record mapping and serialization pipeline of the
`data_utils` repository, a shallow embedding of
`csvtordfexample/mksupplierdata.py` and `netconfig/mknetconfig.py`.

A grid is modelled as a list of rows, each row a list of string cells
(the grid reader itself is an external collaborator).  Python dictionaries
are modelled as association lists with the update semantics of dict:
inserting an existing key replaces its value in place, a new key is
appended at the end, so iteration order matches the insertion order.  Fallible cell
access (`h[i]` raising `IndexError`) is modelled by guarding on the row
length, which is equivalent because in both mappers every cell access
happens before any record is produced and the `IndexError` handler just
skips the row.
-/

namespace DataUtils

/-- The ASCII whitespace characters that Python str.strip removes. -/
def pySpace (c : Char) : Bool :=
  c = ' ' ∨ c = '\t' ∨ c = '\n' ∨ c = '\r' ∨ c = '\x0b' ∨ c = '\x0c'

/-- Python str.strip on the cells: drop leading and trailing
whitespace. -/
def strip (s : String) : String :=
  (((s.data.dropWhile pySpace).reverse.dropWhile pySpace).reverse).asString

/-- Python str.lower on one character, restricted to the ASCII
letters the recognized tokens consist of. -/
def pyLowerChar (c : Char) : Char :=
  if 'A' ≤ c ∧ c ≤ 'Z' then Char.ofNat (c.toNat + 32) else c

/-- Python str.lower. -/
def pyLower (s : String) : String := (s.data.map pyLowerChar).asString

/-- Python str.maketrans with three arguments: characters of del map to
nothing, the i-th character of `src` maps to the i-th character of `dst`,
every other character maps to itself. -/
def pyMaketrans (src dst del : List Char) (c : Char) : Option Char :=
  if c ∈ del then none
  else
    match (src.zip dst).find? (fun p => p.1 = c) with
    | some p => some p.2
    | none => some c

/-- Python str.translate: apply the table to every character,
dropping the deleted ones. -/
def pyTranslate (table : Char → Option Char) (s : String) : String :=
  (s.data.filterMap table).asString

/-- The table built by str.maketrans at mksupplierdata.py line 40:
space, slash and dot map to underscore; colon, comma, apostrophe, plus
and ampersand are deleted. -/
def NAME_ID_TABLE : Char → Option Char :=
  pyMaketrans ([' ', '/', '.']) (['_', '_', '_']) ([':', ',', '\x27', '+', '&'])

/-- Python function translate_name_id (mksupplierdata.py lines 41-42). -/
def translate_name_id (n : String) : String := pyTranslate NAME_ID_TABLE n

/-- Python function map_bool (mksupplierdata.py lines 33-39). -/
def map_bool (v : String) : Option Bool :=
  let w := pyLower v
  if w ∈ [("yes"), ("y"), ("true"), ("t")] then some true
  else if w ∈ [("no"), ("n"), ("false"), ("f")] then some false
  else none

/-- A Python value as stored in a supplier record: a string, a bool
(from a recognized yes/no token), `None` (unknown tri-state), or a list
of strings. -/
inductive PyVal : Type where
  | vstr : String → PyVal
  | vbool : Bool → PyVal
  | vnone : PyVal
  | vlist : List String → PyVal
deriving DecidableEq

/-- Coercion of the result of map_bool into the stored Python value. -/
def pyOfBool : Option Bool → PyVal
  | some b => PyVal.vbool b
  | none => PyVal.vnone

/-- A row of the source grid: an ordered list of string cells. -/
abbrev Row : Type := List String

/-- Python dict insertion: replace the value of an existing key in place,
append a new key at the end (insertion-order semantics). -/
def dictInsert {V : Type} (k : String) (v : V) : List (String × V) → List (String × V)
  | [] => [(k, v)]
  | (k', v') :: d => if k' = k then (k, v) :: d else (k', v') :: dictInsert k v d

/-- Python dict lookup on the association-list model. -/
def dlookup {V : Type} (k : String) : List (String × V) → Option V
  | [] => none
  | (k', v) :: d => if k' = k then some v else dlookup k d

/-- A supplier record: field names mapped to values, in the literal order
of the dict display at mksupplierdata.py lines 71-91. -/
abbrev SupplierRecord : Type := List (String × PyVal)

abbrev SupplierDict : Type := List (String × SupplierRecord)

/-- The normalized identifier the supplier mapper derives from a row
(mksupplierdata.py lines 52 and 69). -/
def supplier_id (h : Row) : String := translate_name_id (strip (h.getD 1 ("")))

/-- The supplier record built from one qualifying row
(mksupplierdata.py lines 51-91). -/
def mkSupplierRecord (h : Row) : SupplierRecord :=
  let product_type := strip (h.getD 0 (""))
  let supplier_name := strip (h.getD 1 (""))
  let location := strip (h.getD 2 (""))
  let supplier_status := strip (h.getD 3 (""))
  let animal_use0 := strip (h.getD 4 (""))
  let packaging_recyclable := strip (h.getD 5 (""))
  let retail_availability := strip (h.getD 6 (""))
  let multinational_org := strip (h.getD 7 (""))
  let supplier_web_page := strip (h.getD 8 (""))
  let comments := strip (h.getD 9 (""))
  let animal_use := if animal_use0 ∈ [("Unsure"), ("")] then "Unknown" else animal_use0
  let recycling_status :=
    if packaging_recyclable = "Yes" then "Food_packaging_recyclable"
    else if packaging_recyclable = "Mostly" then "Food_packaging_part_recyclable"
    else if packaging_recyclable = "Unsure" then "Unknown"
    else ""
  let sid := translate_name_id supplier_name
  [ ("@id", PyVal.vstr ("Potential_suppliers/" ++ sid))
  , ("@type", PyVal.vlist [("fp:Potential_suppliers"), ("annal:EntityData")])
  , ("annal:id", PyVal.vstr sid)
  , ("annal:type", PyVal.vstr ("fp:Potential_suppliers"))
  , ("annal:type_id", PyVal.vstr ("Potential_suppliers"))
  , ("annal:uri", PyVal.vstr ("fp:" ++ sid))
  , ("fp:company_status", PyVal.vstr ("Company_status/" ++ supplier_status))
  , ("fp:company_website", PyVal.vstr supplier_web_page)
  , ("fp:location_ref", PyVal.vstr ("Location/" ++ location))
  , ("fp:multinational_organization", pyOfBool (map_bool multinational_org))
  , ("fp:product_animal_use", PyVal.vstr ("Animal_use/" ++ animal_use))
  , ("fp:product_type_ref", PyVal.vstr ("Product_type/" ++ translate_name_id product_type))
  , ("fp:recycling_status", PyVal.vstr ("Recycling_status/" ++ recycling_status))
  , ("fp:retail_availability", pyOfBool (map_bool retail_availability))
  , ("rdfs:comment", PyVal.vstr comments)
  , ("rdfs:label", PyVal.vstr supplier_name)
  ]

/-- One iteration of the supplier loop body for a row past the header
(mksupplierdata.py lines 50-93): a row with fewer than 10 cells raises
IndexError before any record is stored and is skipped; otherwise a
record is stored exactly when the stripped name cell is non-empty and
does not start with a bracket. -/
def processSupplierRow (d : SupplierDict) (h : Row) : SupplierDict :=
  if h.length < 10 then d
  else
    let supplier_name := strip (h.getD 1 (""))
    if supplier_name ≠ "" ∧ supplier_name.data.head? ≠ some '[' then
      dictInsert (translate_name_id supplier_name) (mkSupplierRecord h) d
    else d

/-- The row loop of getsupplierdata (mksupplierdata.py lines 44-93),
carrying the 1-based row counter: rows numbered 5 or less are skipped. -/
def getsupplierdataRows : Nat → SupplierDict → List Row → SupplierDict
  | _, d, [] => d
  | rowNum, d, h :: rest =>
    if rowNum + 1 ≤ 5 then getsupplierdataRows (rowNum + 1) d rest
    else getsupplierdataRows (rowNum + 1) (processSupplierRow d h) rest

/-- Python function getsupplierdata (mksupplierdata.py lines 29-94): returns status 0
and the dict of supplier records. -/
def getsupplierdata (grid : List Row) : Nat × SupplierDict :=
  (0, getsupplierdataRows 0 [] grid)

/-- Concatenation of the successive `f.write` payloads of a loop. -/
def strJoin : List String → String
  | [] => ""
  | s :: l => s ++ strJoin l

/-- Python left-aligned string padding to width `w`. -/
def padTo (s : String) (w : Nat) : String :=
  s ++ (List.replicate (w - s.length) ' ').asString

/-- Serialization of one record value (mksupplierdata.py lines 123-131):
lists render as a bracketed quoted sequence, bools as bare true/false,
and every other value through the f-string as its quoted str form; in
this way the Python value None renders as the quoted string None.  (On an
empty list the source would raise IndexError; the mapper never builds
one, and we render it as the empty string.) -/
def writeval : PyVal → String
  | PyVal.vstr s => "\"" ++ s ++ "\""
  | PyVal.vbool b => if b then "true" else "false"
  | PyVal.vnone => "\"None\""
  | PyVal.vlist [] => ""
  | PyVal.vlist (x :: xs) =>
      "[ \"" ++ x ++ "\"" ++ strJoin (xs.map (fun itm => ", \"" ++ itm ++ "\"")) ++ " ]"

/-- Serialization of one field (mksupplierdata.py lines 119-131): a
comma-newline, then the quoted key with its colon left-aligned in a
34-column padded field, then the value. -/
def serializeField (kv : String × PyVal) : String :=
  ",\n" ++ padTo ("\"" ++ kv.1 ++ "\":") 34 ++ writeval kv.2

/-- The fixed JSON-LD context header (mksupplierdata.py lines 110-118). -/
def jsonldHeader : String :=
  "\x7b\n  \"@context\": [\n    \x7b\n      \"@base\": \"../../\"\n    \x7d,\n    \"../../coll_context.jsonld\"\n  ]"

/-- The full text written to one `entity_data.jsonld` file
(mksupplierdata.py lines 109-132). -/
def entity_data_content (sdata : SupplierRecord) : String :=
  jsonldHeader ++ strJoin (sdata.map serializeField) ++ "\n\x7d\n"

/-- The record field annal:id as used for the directory name
(mksupplierdata.py line 102); in every record the mapper builds it is a
string. -/
def annal_id (sdata : SupplierRecord) : String :=
  match dlookup ("annal:id") sdata with
  | some (PyVal.vstr s) => s
  | _ => ""

/-- Python function mksupplierjson (mksupplierdata.py lines 96-133) as a pure map from
the supplier dict to the list of (file path, file text) pairs it writes,
in iteration order. -/
def mksupplierjson (supplierdata : SupplierDict) (outfilebase : String) :
    List (String × String) :=
  supplierdata.map (fun p =>
    (outfilebase ++ "/" ++ annal_id p.2 ++ "/" ++ "entity_data.jsonld",
     entity_data_content p.2))

/-- A host record (mknetconfig.py line 45). -/
structure HostRecord : Type where
  name : String
  ipaddr : String
  macaddr : String
  descr : String
deriving DecidableEq

abbrev HostDict : Type := List (String × HostRecord)

/-- One iteration of the host loop body (mknetconfig.py lines 37-47):
a row with fewer than 5 cells raises IndexError before the record is
stored and is skipped; otherwise a record is stored under the name key
exactly when the stripped name cell is non-empty. -/
def processHostRow (d : HostDict) (h : Row) : HostDict :=
  if h.length < 5 then d
  else
    let name := strip (h.getD 1 (""))
    if name ≠ "" then
      dictInsert name
        (HostRecord.mk name (strip (h.getD 2 (""))) (strip (h.getD 3 ("")))
          (strip (h.getD 4 ("")))) d
    else d

/-- Python function gethostdata (mknetconfig.py lines 32-48): every row of the grid is
processed (there is no header skip), and status 0 is returned. -/
def gethostdata (grid : List Row) : Nat × HostDict :=
  (0, grid.foldl processHostRow [])

/-- The header comment block of the dhcpd.conf output
(mknetconfig.py lines 57-63). -/
def dhcpdHeader (filename : String) : String :=
  "# " ++ filename ++
  "\n#\n# Copy this file to /etc/dhcp on the server system, and \n# include in /etc/dhcp/dhcpd.conf with this line:\n#   include \"/etc/dhcp/" ++
  filename ++ "\" ;\n#\n"

/-- One DHCP static-host stanza (mknetconfig.py lines 66-71). -/
def dhcpdEntry (h : HostRecord) : String :=
  "host " ++ h.name ++ "\n    \x7b   # " ++ h.descr ++
  "\n        hardware ethernet " ++ h.macaddr ++
  " ;\n        fixed-address     " ++ h.name ++
  ".atuin.ninebynine.org ;\n    \x7d\n"

/-- The full text of the `<base>.dhcpd.conf` file (mknetconfig.py lines
50-74): header plus one stanza per host whose MAC address is non-empty. -/
def mkdhcpdconfContent (hostdata : HostDict) (filename : String) : String :=
  dhcpdHeader filename ++
    strJoin (hostdata.map (fun p => if p.2.macaddr ≠ "" then dhcpdEntry p.2 else ""))

/-- The header comment block of the zone.hosts output
(mknetconfig.py lines 83-89). -/
def zoneHeader (filename : String) : String :=
  "; " ++ filename ++
  "\n;\n; Copy this file to /etc/bind/atuin on the server system, and \n; include in /etc/bind/atuin/atuin.ninebynine.org.zone with this line:\n;   $INCLUDE " ++
  filename ++ "\n;\n"

/-- One DNS A-record line (mknetconfig.py line 91). -/
def dnsEntry (h : HostRecord) : String :=
  padTo h.name 16 ++ " IN A " ++ padTo h.ipaddr 16 ++ "   ; " ++ h.descr ++ "\n"

/-- The full text of the `<base>.zone.hosts` file (mknetconfig.py lines
76-94): header plus one DNS line per host, whatever its MAC address. -/
def mkzonehostsContent (hostdata : HostDict) (filename : String) : String :=
  zoneHeader filename ++ strJoin (hostdata.map (fun p => dnsEntry p.2))

/-- Character-list prefix test: `isPrefL p s` holds when `p` is a prefix
of `s`. -/
def isPrefL : List Char → List Char → Bool
  | [], _ => true
  | _ :: _, [] => false
  | b :: p, a :: s => b == a && isPrefL p s

/-- Character-list substring search. -/
def hasSubL (pat : List Char) : List Char → Bool
  | [] => isPrefL pat []
  | c :: t => isPrefL pat (c :: t) || hasSubL pat t

/-- Executable substring test on strings. -/
def hasSubstr (s pat : String) : Bool := hasSubL pat.data s.data

/-- Predicate stating that pat occurs contiguously inside s. -/
def SubStr (s pat : String) : Prop := ∃ a b, s = a ++ pat ++ b

/-- The character-level transformation as the specification words it:
replace each of space, slash and dot with an underscore, delete each of
colon, comma, apostrophe, plus and ampersand, leave every other
character unchanged. -/
def spec_char_map (c : Char) : List Char :=
  if c = ' ' ∨ c = '/' ∨ c = '.' then ['_']
  else if c = ':' ∨ c = ',' ∨ c = '\x27' ∨ c = '+' ∨ c = '&' then []
  else [c]

/-- The condition under which the supplier loop stores a record for a
row past the header: enough cells, and a stripped name that is non-empty
and does not start with a bracket. -/
def QualRow (h : Row) : Prop :=
  10 ≤ h.length ∧ strip (h.getD 1 ("")) ≠ ""
    ∧ (strip (h.getD 1 (""))).data.head? ≠ some '['

instance decQualRow (h : Row) : Decidable (QualRow h) := by
  unfold QualRow
  infer_instance

/-- Five arbitrary header rows for concrete test grids. -/
def hdr5 : List Row := [[("h")], [("h")], [("h")], [("h")], [("h")]]

/-- A concrete host-table header row. -/
def hostHeaderRow : Row :=
  [("Host table"), ("Name"), ("IP address"), ("MAC"), ("Description")]

/-- A concrete supplier data row with an ampersand, a comma and a dot in
the name cell. -/
def fooRow : Row :=
  [("Soap"), ("Foo & Bar, Ltd."), ("UK"), ("Active"), ("No"), ("Yes"), ("yes"),
   ("Unsure"), ("http://foo.example"), ("A supplier")]

/-- A concrete well-formed supplier data row. -/
def exRow : Row :=
  [("Soap"), ("Acme Co"), ("UK"), ("Active"), ("No"), ("Yes"), ("yes"),
   ("Unsure"), ("http://acme.example"), ("A supplier")]

/-- A concrete malformed row with too few cells. -/
def shortRow : Row := [("x"), ("y")]

/-- The supplier record of a well-formed row whose stripped name cell is
"Acme Co" and stripped status cell is "Active", with the name-derived and
status-derived fields evaluated. -/
def acmeRecord (r : Row) : SupplierRecord :=
  [ ("@id", PyVal.vstr ("Potential_suppliers/Acme_Co"))
  , ("@type", PyVal.vlist [("fp:Potential_suppliers"), ("annal:EntityData")])
  , ("annal:id", PyVal.vstr ("Acme_Co"))
  , ("annal:type", PyVal.vstr ("fp:Potential_suppliers"))
  , ("annal:type_id", PyVal.vstr ("Potential_suppliers"))
  , ("annal:uri", PyVal.vstr ("fp:Acme_Co"))
  , ("fp:company_status", PyVal.vstr ("Company_status/Active"))
  , ("fp:company_website", PyVal.vstr (strip (r.getD 8 (""))))
  , ("fp:location_ref", PyVal.vstr ("Location/" ++ strip (r.getD 2 (""))))
  , ("fp:multinational_organization", pyOfBool (map_bool (strip (r.getD 7 ("")))))
  , ("fp:product_animal_use", PyVal.vstr ("Animal_use/" ++
      (if strip (r.getD 4 ("")) ∈ [("Unsure"), ("")] then "Unknown"
       else strip (r.getD 4 ("")))))
  , ("fp:product_type_ref", PyVal.vstr ("Product_type/" ++
      translate_name_id (strip (r.getD 0 ("")))))
  , ("fp:recycling_status", PyVal.vstr ("Recycling_status/" ++
      (if strip (r.getD 5 ("")) = "Yes" then "Food_packaging_recyclable"
       else if strip (r.getD 5 ("")) = "Mostly" then "Food_packaging_part_recyclable"
       else if strip (r.getD 5 ("")) = "Unsure" then "Unknown"
       else "")))
  , ("fp:retail_availability", pyOfBool (map_bool (strip (r.getD 6 ("")))))
  , ("rdfs:comment", PyVal.vstr (strip (r.getD 9 (""))))
  , ("rdfs:label", PyVal.vstr ("Acme Co"))
  ]


theorem isPrefL_append (p s : List Char) : isPrefL p (p ++ s) = true := by
  induction p with
  | nil => rfl
  | cons a t ih => simp [isPrefL, ih]

theorem hasSubL_of_isPrefL (pat s : List Char) (h : isPrefL pat s = true) :
    hasSubL pat s = true := by
  cases s with
  | nil => exact h
  | cons c t => simp [hasSubL, h]

theorem hasSubL_of_append (a pat b : List Char) :
    hasSubL pat (a ++ (pat ++ b)) = true := by
  induction a with
  | nil => exact hasSubL_of_isPrefL pat (pat ++ b) (isPrefL_append pat b)
  | cons c t ih => simp [hasSubL, ih]

/-- Soundness of the executable substring test: a contiguous occurrence
makes `hasSubstr` answer `true` (used contrapositively to refute claimed
occurrences by evaluation). -/
theorem hasSubstr_of_SubStr (s pat : String) (h : SubStr s pat) :
    hasSubstr s pat = true := by
  obtain ⟨a, b, rfl⟩ := h
  show hasSubL pat.data (a ++ pat ++ b).data = true
  rw [String.append_assoc, String.data_append, String.data_append]
  exact hasSubL_of_append a.data pat.data b.data

theorem NAME_ID_TABLE_toList (c : Char) :
    (NAME_ID_TABLE c).toList = spec_char_map c := by
  unfold NAME_ID_TABLE pyMaketrans spec_char_map
  by_cases h1 : c = ' ' <;> by_cases h2 : c = '/' <;> by_cases h3 : c = '.' <;>
    by_cases h4 : c = ':' <;> by_cases h5 : c = ',' <;> by_cases h6 : c = '\x27' <;>
    by_cases h7 : c = '+' <;> by_cases h8 : c = '&' <;>
    simp_all [List.find?, eq_comm]

theorem spec_char_map_fixed (c c' : Char) (h : spec_char_map c = [c']) :
    spec_char_map c' = [c'] := by
  unfold spec_char_map at h
  split_ifs at h with g1 g2
  · simp only [List.cons.injEq, and_true] at h
    rw [← h]
    decide
  · simp only [List.cons.injEq, and_true] at h
    rw [← h]
    unfold spec_char_map
    rw [if_neg g1, if_neg g2]

theorem option_toList_eq_some (o : Option Char) (x : Char) :
    o.toList = [x] ↔ o = some x := by
  cases o <;> simp

theorem NAME_ID_TABLE_fixed (c c' : Char) (h : NAME_ID_TABLE c = some c') :
    NAME_ID_TABLE c' = some c' := by
  rw [← option_toList_eq_some] at h ⊢
  rw [NAME_ID_TABLE_toList] at h ⊢
  exact spec_char_map_fixed c c' h

theorem processSupplierRow_eq (d : SupplierDict) (h : Row) :
    processSupplierRow d h =
      if QualRow h then dictInsert (supplier_id h) (mkSupplierRecord h) d else d := by
  unfold processSupplierRow QualRow supplier_id
  by_cases g1 : h.length < 10
  · rw [if_pos g1, if_neg]
    omega
  · rw [if_neg g1]
    by_cases g2 : strip (h.getD 1 ("")) ≠ "" ∧ (strip (h.getD 1 (""))).data.head? ≠ some '['
    · rw [if_pos g2, if_pos ⟨by omega, g2.1, g2.2⟩]
    · rw [if_neg g2, if_neg]
      intro g3
      exact g2 ⟨g3.2.1, g3.2.2⟩

theorem dlookup_dictInsert {V : Type} (k k' : String) (v : V) (d : List (String × V)) :
    dlookup k (dictInsert k' v d) = if k' = k then some v else dlookup k d := by
  induction d with
  | nil => simp [dictInsert, dlookup]
  | cons p t ih =>
    obtain ⟨k0, v0⟩ := p
    by_cases h : k0 = k'
    · subst h
      by_cases h2 : k0 = k <;> simp [dictInsert, dlookup, h2]
    · by_cases h2 : k0 = k
      · subst h2
        have hk : ¬k' = k0 := fun hk => h hk.symm
        simp [dictInsert, dlookup, h, hk]
      · simp [dictInsert, dlookup, h, h2, ih]

theorem keys_dictInsert {V : Type} (k : String) (v : V) (d : List (String × V)) :
    (dictInsert k v d).map Prod.fst =
      if k ∈ d.map Prod.fst then d.map Prod.fst else d.map Prod.fst ++ [k] := by
  induction d with
  | nil => simp [dictInsert]
  | cons p t ih =>
    obtain ⟨k0, v0⟩ := p
    by_cases h : k0 = k
    · simp [dictInsert, h]
    · simp only [dictInsert, if_neg h, List.map_cons, ih]
      by_cases h2 : k ∈ t.map Prod.fst <;>
        simp [h2, List.mem_cons, fun hh : k = k0 => h hh.symm, Ne.symm h]

theorem nodup_keys_dictInsert {V : Type} (k : String) (v : V) (d : List (String × V))
    (hd : (d.map Prod.fst).Nodup) : ((dictInsert k v d).map Prod.fst).Nodup := by
  rw [keys_dictInsert]
  by_cases h : k ∈ d.map Prod.fst
  · simpa [h] using hd
  · simp only [if_neg h]
    simp [List.nodup_append, hd, h]

theorem gsr_ge5 (l : List Row) (n : Nat) (d : SupplierDict) (h : 5 ≤ n) :
    getsupplierdataRows n d l = l.foldl processSupplierRow d := by
  induction l generalizing n d with
  | nil => rfl
  | cons r t ih =>
    have h1 : ¬(n + 1 ≤ 5) := by omega
    simp only [getsupplierdataRows, if_neg h1, List.foldl_cons]
    exact ih (n + 1) (processSupplierRow d r) (by omega)

theorem gsr_skip (a rest : List Row) (n : Nat) (d : SupplierDict)
    (h : n + a.length ≤ 5) :
    getsupplierdataRows n d (a ++ rest) = getsupplierdataRows (n + a.length) d rest := by
  induction a generalizing n with
  | nil => simp
  | cons r t ih =>
    have h1 : n + 1 ≤ 5 := by simp at h; omega
    simp only [List.cons_append, getsupplierdataRows, List.append_eq, if_pos h1]
    rw [ih (n + 1) (by simp at h ⊢; omega)]
    congr 1
    simp
    omega

theorem getsupplierdata_eq_drop (grid : List Row) :
    (getsupplierdata grid).2 = (grid.drop 5).foldl processSupplierRow [] := by
  show getsupplierdataRows 0 [] grid = _
  by_cases h : 5 ≤ grid.length
  · have hlen : (grid.take 5).length = 5 := by
      simp [List.length_take]
      omega
    calc getsupplierdataRows 0 [] grid
        = getsupplierdataRows 0 [] (grid.take 5 ++ grid.drop 5) := by
          rw [List.take_append_drop]
      _ = getsupplierdataRows (0 + (grid.take 5).length) [] (grid.drop 5) :=
          gsr_skip _ _ 0 [] (by omega)
      _ = (grid.drop 5).foldl processSupplierRow [] := by
          rw [hlen]
          exact gsr_ge5 _ 5 [] (by omega)
  · have hd : grid.drop 5 = [] := List.drop_eq_nil_of_le (by omega)
    have h2 := gsr_skip grid [] 0 [] (by omega)
    simp at h2
    rw [hd]
    simpa using h2

theorem dlookup_foldl_process (l : List Row) (d : SupplierDict) (k : String) :
    dlookup k (l.foldl processSupplierRow d) =
      (((l.filter (fun h => decide (QualRow h))).reverse.find?
          (fun h => supplier_id h == k)).map mkSupplierRecord).or (dlookup k d) := by
  induction l generalizing d with
  | nil => simp
  | cons r t ih =>
    rw [List.foldl_cons, ih, processSupplierRow_eq, List.filter_cons]
    by_cases hq : QualRow r
    · rw [if_pos hq, if_pos (show decide (QualRow r) = true by simp [hq])]
      rw [List.reverse_cons, List.find?_append]
      rw [dlookup_dictInsert]
      by_cases hs : supplier_id r = k
      · have hb : (supplier_id r == k) = true := by simp [hs]
        cases hA : (t.filter (fun h => decide (QualRow h))).reverse.find?
            (fun h => supplier_id h == k) <;>
          simp [hA, List.find?, hb, hs]
      · have hb : (supplier_id r == k) = false := by simp [hs]
        cases hA : (t.filter (fun h => decide (QualRow h))).reverse.find?
            (fun h => supplier_id h == k) <;>
          simp [hA, List.find?, hb, hs]
    · rw [if_neg hq, if_neg (show ¬decide (QualRow r) = true by simp [hq])]

theorem nodup_keys_foldl (l : List Row) (d : SupplierDict)
    (hd : (d.map Prod.fst).Nodup) :
    ((l.foldl processSupplierRow d).map Prod.fst).Nodup := by
  induction l generalizing d with
  | nil => exact hd
  | cons r t ih =>
    rw [List.foldl_cons, processSupplierRow_eq]
    by_cases hq : QualRow r
    · rw [if_pos hq]
      exact ih _ (nodup_keys_dictInsert _ _ _ hd)
    · rw [if_neg hq]
      exact ih _ hd

theorem empty_str_append (s : String) : "" ++ s = s := rfl

theorem strJoin_if_filter (d : HostDict) :
    strJoin (d.map (fun p => if p.2.macaddr ≠ "" then dhcpdEntry p.2 else "")) =
      strJoin ((d.filter (fun p => decide (p.2.macaddr ≠ ""))).map
        (fun p => dhcpdEntry p.2)) := by
  induction d with
  | nil => rfl
  | cons p t ih =>
    rw [List.map_cons, List.filter_cons]
    by_cases h : p.2.macaddr = ""
    · rw [if_neg (show ¬(decide (p.2.macaddr ≠ "") = true) by simp [h])]
      simp only [strJoin]
      rw [if_neg (not_not_intro h), ih, empty_str_append]
    · rw [if_pos (show decide (p.2.macaddr ≠ "") = true by simp [h]), List.map_cons]
      simp only [strJoin]
      rw [if_pos h, ih]

theorem strJoin_append (a b : List String) :
    strJoin (a ++ b) = strJoin a ++ strJoin b := by
  induction a with
  | nil => rw [List.nil_append]; exact (empty_str_append _).symm
  | cons s t ih =>
    rw [List.cons_append]
    simp only [strJoin]
    rw [ih, String.append_assoc]

theorem substr_of_field (pre post x pat : String) (l m : List String) :
    SubStr (pre ++ strJoin (l ++ (x ++ pat) :: m) ++ post) pat := by
  refine ⟨pre ++ strJoin l ++ x, strJoin m ++ post, ?_⟩
  rw [strJoin_append]
  simp only [strJoin]
  simp [String.append_assoc]

theorem substr_entity (sdata : SupplierRecord) (l m : List (String × PyVal))
    (kv : String × PyVal) (x pat : String)
    (hs : sdata = l ++ kv :: m) (hf : serializeField kv = x ++ pat) :
    SubStr (entity_data_content sdata) pat := by
  subst hs
  unfold entity_data_content
  rw [List.map_append, List.map_cons, hf]
  exact substr_of_field jsonldHeader ("\n\x7d\n") x pat _ _

/-- Claim C1: translate_name_id is a pure function that, for every input
string, replaces each occurrence of space, slash and dot with an
underscore, deletes each occurrence of colon, comma, apostrophe, plus and
ampersand, and leaves every other character unchanged (stated via the
character-level map spec_char_map worded from the specification). -/
theorem C1_translate_name_id_charwise (s : String) :
    translate_name_id s = (s.data.flatMap spec_char_map).asString := by
  unfold translate_name_id pyTranslate
  rw [List.filterMap_eq_flatMap_toList]
  simp only [NAME_ID_TABLE_toList]

/-- Claim C2 counterexample: the identifier the supplier mapper derives
from the name cell "Foo & Bar, Ltd." is "Foo__Bar_Ltd_" (double
underscore where " & " collapsed, trailing underscore from the dot), not
"Foo_Bar_Ltd." as claimed: that key is absent from the record map. -/
theorem C2_counterexample :
    translate_name_id ("Foo & Bar, Ltd.") = "Foo__Bar_Ltd_"
    ∧ translate_name_id ("Foo & Bar, Ltd.") ≠ "Foo_Bar_Ltd."
    ∧ dlookup ("Foo_Bar_Ltd.") (getsupplierdata (hdr5 ++ [fooRow])).2 = none
    ∧ dlookup ("Foo__Bar_Ltd_") (getsupplierdata (hdr5 ++ [fooRow])).2 ≠ none := by
  refine ⟨by decide, by decide, by decide, by decide⟩

/-- Claim C2 amended: for a supplier row whose stripped name cell is
"Foo & Bar, Ltd.", the identifier derived by the supplier record mapper
is exactly "Foo__Bar_Ltd_". -/
theorem C2_amended_identifier (hdr : List Row) (r : Row) (h5 : hdr.length = 5)
    (h10 : 10 ≤ r.length) (hname : strip (r.getD 1 ("")) = "Foo & Bar, Ltd.") :
    (getsupplierdata (hdr ++ [r])).2.map Prod.fst = [("Foo__Bar_Ltd_")] := by
  have e1 := getsupplierdata_eq_drop (hdr ++ [r])
  rw [← h5, List.drop_left] at e1
  rw [e1]
  simp only [List.foldl_cons, List.foldl_nil]
  rw [processSupplierRow_eq, if_pos ⟨h10, by rw [hname]; decide, by rw [hname]; decide⟩]
  have hsid : supplier_id r = "Foo__Bar_Ltd_" := by
    unfold supplier_id
    rw [hname]
    decide
  simp [dictInsert, hsid]

set_option maxRecDepth 120000

/-- Claim C3 counterexample: for the concrete 6-row grid with supplier
name "Acme Co" and status "Active", the single output file is
out/Acme_Co/entity_data.jsonld, but its text does NOT contain the
contiguous substrings claimed: the serializer pads every quoted key and
colon to 34 columns, so the value never directly follows the colon. -/
theorem C3_counterexample :
    mksupplierjson (getsupplierdata (hdr5 ++ [exRow])).2 ("out") =
      [(("out/Acme_Co/entity_data.jsonld"),
        entity_data_content (mkSupplierRecord exRow))]
    ∧ hasSubstr (entity_data_content (mkSupplierRecord exRow))
        ("\"rdfs:label\":\"Acme Co\"") = false
    ∧ ¬ SubStr (entity_data_content (mkSupplierRecord exRow))
        ("\"rdfs:label\":\"Acme Co\"")
    ∧ hasSubstr (entity_data_content (mkSupplierRecord exRow))
        ("\"fp:company_status\":\"Company_status/Active\"") = false
    ∧ ¬ SubStr (entity_data_content (mkSupplierRecord exRow))
        ("\"fp:company_status\":\"Company_status/Active\"") := by
  have hf1 : hasSubstr (entity_data_content (mkSupplierRecord exRow))
      ("\"rdfs:label\":\"Acme Co\"") = false := by decide
  have hf2 : hasSubstr (entity_data_content (mkSupplierRecord exRow))
      ("\"fp:company_status\":\"Company_status/Active\"") = false := by decide
  refine ⟨by decide, hf1, ?_, hf2, ?_⟩
  · intro hc
    have ht := hasSubstr_of_SubStr _ _ hc
    rw [hf1] at ht
    exact Bool.false_ne_true ht
  · intro hc
    have ht := hasSubstr_of_SubStr _ _ hc
    rw [hf2] at ht
    exact Bool.false_ne_true ht

/-- Claim C3 amended: for a grid of five header rows plus one data row
with at least 10 cells whose stripped name cell is "Acme Co" and stripped
status cell is "Active", the supplier pipeline produces exactly the file
Acme_Co/entity_data.jsonld under the output base, whose text contains the
contiguous substrings consisting of the quoted key, the colon, the
padding spaces up to column 34, and the quoted value, for both the
rdfs:label field ("Acme Co") and the fp:company_status field
("Company_status/Active"). -/
theorem C3_amended_output (hdr : List Row) (r : Row) (base : String)
    (h5 : hdr.length = 5) (h10 : 10 ≤ r.length)
    (hname : strip (r.getD 1 ("")) = "Acme Co")
    (hstat : strip (r.getD 3 ("")) = "Active") :
    ∃ c, mksupplierjson (getsupplierdata (hdr ++ [r])).2 base =
        [(base ++ "/" ++ "Acme_Co" ++ "/" ++ "entity_data.jsonld", c)]
      ∧ SubStr c ("\"rdfs:label\":                     \"Acme Co\"")
      ∧ SubStr c ("\"fp:company_status\":              \"Company_status/Active\"") := by
  have hq : QualRow r := ⟨h10, by rw [hname]; decide, by rw [hname]; decide⟩
  have e1 := getsupplierdata_eq_drop (hdr ++ [r])
  rw [← h5, List.drop_left] at e1
  have hrec : mkSupplierRecord r = acmeRecord r := by
    simp only [mkSupplierRecord, acmeRecord, hname, hstat]
    rfl
  have hsid : supplier_id r = "Acme_Co" := by
    unfold supplier_id
    rw [hname]
    decide
  have hmap : (getsupplierdata (hdr ++ [r])).2 = [("Acme_Co", acmeRecord r)] := by
    rw [e1]
    simp only [List.foldl_cons, List.foldl_nil]
    rw [processSupplierRow_eq, if_pos hq, hsid, hrec]
    rfl
  have hid : annal_id (acmeRecord r) = "Acme_Co" := by
    simp [annal_id, acmeRecord, dlookup]
  refine ⟨entity_data_content (acmeRecord r), ?_, ?_, ?_⟩
  · rw [hmap]
    unfold mksupplierjson
    rw [List.map_cons, List.map_nil, hid]
  · exact substr_entity (acmeRecord r)
      [ ("@id", PyVal.vstr ("Potential_suppliers/Acme_Co"))
      , ("@type", PyVal.vlist [("fp:Potential_suppliers"), ("annal:EntityData")])
      , ("annal:id", PyVal.vstr ("Acme_Co"))
      , ("annal:type", PyVal.vstr ("fp:Potential_suppliers"))
      , ("annal:type_id", PyVal.vstr ("Potential_suppliers"))
      , ("annal:uri", PyVal.vstr ("fp:Acme_Co"))
      , ("fp:company_status", PyVal.vstr ("Company_status/Active"))
      , ("fp:company_website", PyVal.vstr (strip (r.getD 8 (""))))
      , ("fp:location_ref", PyVal.vstr ("Location/" ++ strip (r.getD 2 (""))))
      , ("fp:multinational_organization", pyOfBool (map_bool (strip (r.getD 7 ("")))))
      , ("fp:product_animal_use", PyVal.vstr ("Animal_use/" ++
          (if strip (r.getD 4 ("")) ∈ [("Unsure"), ("")] then "Unknown"
           else strip (r.getD 4 ("")))))
      , ("fp:product_type_ref", PyVal.vstr ("Product_type/" ++
          translate_name_id (strip (r.getD 0 ("")))))
      , ("fp:recycling_status", PyVal.vstr ("Recycling_status/" ++
          (if strip (r.getD 5 ("")) = "Yes" then "Food_packaging_recyclable"
           else if strip (r.getD 5 ("")) = "Mostly" then "Food_packaging_part_recyclable"
           else if strip (r.getD 5 ("")) = "Unsure" then "Unknown"
           else "")))
      , ("fp:retail_availability", pyOfBool (map_bool (strip (r.getD 6 ("")))))
      , ("rdfs:comment", PyVal.vstr (strip (r.getD 9 (""))))
      ]
      []
      (("rdfs:label"), PyVal.vstr ("Acme Co"))
      (",\n")
      ("\"rdfs:label\":                     \"Acme Co\"")
      rfl
      (by decide)
  · exact substr_entity (acmeRecord r)
      [ ("@id", PyVal.vstr ("Potential_suppliers/Acme_Co"))
      , ("@type", PyVal.vlist [("fp:Potential_suppliers"), ("annal:EntityData")])
      , ("annal:id", PyVal.vstr ("Acme_Co"))
      , ("annal:type", PyVal.vstr ("fp:Potential_suppliers"))
      , ("annal:type_id", PyVal.vstr ("Potential_suppliers"))
      , ("annal:uri", PyVal.vstr ("fp:Acme_Co"))
      ]
      [ ("fp:company_website", PyVal.vstr (strip (r.getD 8 (""))))
      , ("fp:location_ref", PyVal.vstr ("Location/" ++ strip (r.getD 2 (""))))
      , ("fp:multinational_organization", pyOfBool (map_bool (strip (r.getD 7 ("")))))
      , ("fp:product_animal_use", PyVal.vstr ("Animal_use/" ++
          (if strip (r.getD 4 ("")) ∈ [("Unsure"), ("")] then "Unknown"
           else strip (r.getD 4 ("")))))
      , ("fp:product_type_ref", PyVal.vstr ("Product_type/" ++
          translate_name_id (strip (r.getD 0 ("")))))
      , ("fp:recycling_status", PyVal.vstr ("Recycling_status/" ++
          (if strip (r.getD 5 ("")) = "Yes" then "Food_packaging_recyclable"
           else if strip (r.getD 5 ("")) = "Mostly" then "Food_packaging_part_recyclable"
           else if strip (r.getD 5 ("")) = "Unsure" then "Unknown"
           else "")))
      , ("fp:retail_availability", pyOfBool (map_bool (strip (r.getD 6 ("")))))
      , ("rdfs:comment", PyVal.vstr (strip (r.getD 9 (""))))
      , ("rdfs:label", PyVal.vstr ("Acme Co"))
      ]
      (("fp:company_status"), PyVal.vstr ("Company_status/Active"))
      (",\n")
      ("\"fp:company_status\":              \"Company_status/Active\"")
      rfl
      (by decide)

/-- Claim C4: for every input string, map_bool returns true when the
lowercased string is one of yes, y, true, t; false when it is one of
no, n, false, f; and the unknown value (none) exactly otherwise,
including the empty string: a tri-state result distinct from false. -/
theorem C4_map_bool_tristate (v : String) :
    (map_bool v = some true ↔ pyLower v ∈ [("yes"), ("y"), ("true"), ("t")])
    ∧ (map_bool v = some false ↔ pyLower v ∈ [("no"), ("n"), ("false"), ("f")])
    ∧ (map_bool v = none ↔
        pyLower v ∉ [("yes"), ("y"), ("true"), ("t")]
        ∧ pyLower v ∉ [("no"), ("n"), ("false"), ("f")]) := by
  by_cases h1 : pyLower v ∈ [("yes"), ("y"), ("true"), ("t")]
  · have h2 : pyLower v ∉ [("no"), ("n"), ("false"), ("f")] := by
      intro h2
      simp only [List.mem_cons, List.not_mem_nil, or_false] at h1 h2
      rcases h1 with h | h | h | h <;> rcases h2 with g | g | g | g <;>
        rw [h] at g <;> revert g <;> decide
    simp [map_bool, h1, h2]
  · by_cases h2 : pyLower v ∈ [("no"), ("n"), ("false"), ("f")]
    · simp [map_bool, h1, h2]
    · simp [map_bool, h1, h2]


/-- Claim C5: the supplier map has no duplicate identifiers (exactly one
entry per key); the entry at key k is the record of the LAST row past the
header that qualifies (at least 10 cells, stripped name non-empty and not
bracket-prefixed) and normalizes to k; and any key present in the map
comes from such a qualifying row, so a bracket-prefixed or empty name
never produces a record. -/
theorem C5_record_filter_last_write_wins (grid : List Row) :
    ((getsupplierdata grid).2.map Prod.fst).Nodup
    ∧ (∀ k, dlookup k (getsupplierdata grid).2 =
        (((grid.drop 5).filter (fun h => decide (QualRow h))).reverse.find?
            (fun h => supplier_id h == k)).map mkSupplierRecord)
    ∧ (∀ k, dlookup k (getsupplierdata grid).2 ≠ none →
        ∃ h, h ∈ grid.drop 5 ∧ 10 ≤ h.length ∧ strip (h.getD 1 ("")) ≠ ""
          ∧ (strip (h.getD 1 (""))).data.head? ≠ some '[' ∧ supplier_id h = k) := by
  have hchar : ∀ k, dlookup k (getsupplierdata grid).2 =
      (((grid.drop 5).filter (fun h => decide (QualRow h))).reverse.find?
          (fun h => supplier_id h == k)).map mkSupplierRecord := by
    intro k
    rw [getsupplierdata_eq_drop, dlookup_foldl_process]
    simp [dlookup]
  refine ⟨?_, hchar, ?_⟩
  · rw [getsupplierdata_eq_drop]
    exact nodup_keys_foldl _ [] (by simp)
  · intro k hk
    rw [hchar k] at hk
    cases hF : ((grid.drop 5).filter (fun h => decide (QualRow h))).reverse.find?
        (fun h => supplier_id h == k) with
    | none =>
      rw [hF] at hk
      simp at hk
    | some h =>
      have hmem : h ∈ ((grid.drop 5).filter (fun h => decide (QualRow h))).reverse :=
        List.mem_of_find?_eq_some hF
      have hpred := List.find?_some hF
      rw [List.mem_reverse, List.mem_filter] at hmem
      have hq : QualRow h := by
        have h2 := hmem.2
        simpa using h2
      refine ⟨h, hmem.1, hq.1, hq.2.1, hq.2.2, ?_⟩
      simpa using hpred

/-- Claim C6 counterexample: the host record mapper does not skip header
rows: feeding it a single header row whose second cell is "Name" yields a
host record for "Name", so its output on a header row is not empty. -/
theorem C6_counterexample :
    (gethostdata [hostHeaderRow]).2 =
      [(("Name"),
        HostRecord.mk ("Name") ("IP address") ("MAC") ("Description"))]
    ∧ (gethostdata [hostHeaderRow]).2 ≠ [] := by
  decide

/-- Claim C6 amended: the supplier record mapper produces no record from
any of the first five rows regardless of their content (its result
depends only on the later rows), but the host record mapper does not skip
header rows: every row with at least 5 cells and a non-empty stripped
name cell produces a host record, wherever it occurs in the grid. -/
theorem C6_amended_header_skip :
    (∀ a b rest, a.length = 5 → b.length = 5 →
      getsupplierdata (a ++ rest) = getsupplierdata (b ++ rest))
    ∧ (∀ r : Row, 5 ≤ r.length → strip (r.getD 1 ("")) ≠ "" →
      dlookup (strip (r.getD 1 (""))) (gethostdata [r]).2 =
        some (HostRecord.mk (strip (r.getD 1 (""))) (strip (r.getD 2 ("")))
          (strip (r.getD 3 (""))) (strip (r.getD 4 (""))))) := by
  constructor
  · intro a b rest ha hb
    have e1 := gsr_skip a rest 0 [] (by omega)
    have e2 := gsr_skip b rest 0 [] (by omega)
    rw [ha] at e1
    rw [hb] at e2
    show (0, getsupplierdataRows 0 [] (a ++ rest)) = (0, getsupplierdataRows 0 [] (b ++ rest))
    rw [e1, e2]
  · intro r hlen hname
    show dlookup _ (List.foldl processHostRow [] [r]) = _
    simp only [List.foldl_cons, List.foldl_nil]
    unfold processHostRow
    rw [if_neg (by omega), if_pos hname]
    simp [dictInsert, dlookup]

/-- Claim C7: a data row with fewer than 10 cells (supplier mapper) or
fewer than 5 cells (host mapper) is skipped without affecting the result:
deleting such a row from the grid leaves the output unchanged, processing
continues over the surrounding rows, and both mappers always return
status 0. -/
theorem C7_short_rows_skipped :
    (∀ pre r post, 5 ≤ pre.length → r.length < 10 →
      getsupplierdata (pre ++ r :: post) = getsupplierdata (pre ++ post))
    ∧ (∀ pre r post, r.length < 5 →
      gethostdata (pre ++ r :: post) = gethostdata (pre ++ post))
    ∧ (∀ g, (getsupplierdata g).1 = 0 ∧ (gethostdata g).1 = 0) := by
  refine ⟨?_, ?_, fun g => ⟨rfl, rfl⟩⟩
  · intro pre r post h5 h10
    have hpr : ∀ d, processSupplierRow d r = d := by
      intro d
      simp [processSupplierRow, if_pos h10]
    have e1 := getsupplierdata_eq_drop (pre ++ r :: post)
    have e2 := getsupplierdata_eq_drop (pre ++ post)
    rw [List.drop_append_of_le_length h5] at e1 e2
    show (0, (getsupplierdata (pre ++ r :: post)).2) = (0, (getsupplierdata (pre ++ post)).2)
    rw [e1, e2, List.foldl_append, List.foldl_append, List.foldl_cons, hpr]
  · intro pre r post h5
    have hpr : ∀ d, processHostRow d r = d := by
      intro d
      simp [processHostRow, if_pos h5]
    show (0, (pre ++ r :: post).foldl processHostRow []) = (0, (pre ++ post).foldl processHostRow [])
    rw [List.foldl_append, List.foldl_append, List.foldl_cons, hpr]

/-- Claim C8: the dhcpd.conf text is the header followed by one DHCP
static-host stanza (fixed-address name.atuin.ninebynine.org bound to the
MAC address, see dhcpdEntry) for exactly the hosts whose MAC address is
non-empty, in map order, while the zone.hosts text is the header followed
by one DNS A-record line (dnsEntry) for every host in the map, including
those with an empty MAC address. -/
theorem C8_dhcpd_zone_outputs (d : HostDict) (fn : String) :
    mkdhcpdconfContent d fn =
      dhcpdHeader fn ++ strJoin ((d.filter (fun p => decide (p.2.macaddr ≠ ""))).map
        (fun p => dhcpdEntry p.2))
    ∧ mkzonehostsContent d fn =
      zoneHeader fn ++ strJoin (d.map (fun p => dnsEntry p.2)) := by
  constructor
  · unfold mkdhcpdconfContent
    rw [strJoin_if_filter]
  · rfl

/-- Claim C9: identifier normalization is idempotent: applying
translate_name_id to its own output returns that output unchanged. -/
theorem C9_translate_idempotent (s : String) :
    translate_name_id (translate_name_id s) = translate_name_id s := by
  unfold translate_name_id pyTranslate
  have hdata : ((s.data.filterMap NAME_ID_TABLE).asString).data
      = s.data.filterMap NAME_ID_TABLE := rfl
  rw [hdata, List.filterMap_filterMap]
  have hfun : (fun x => (NAME_ID_TABLE x).bind NAME_ID_TABLE) = NAME_ID_TABLE := by
    funext c
    cases hc : NAME_ID_TABLE c with
    | none => simp [hc]
    | some c' => simp [hc, NAME_ID_TABLE_fixed c c' hc]
  rw [hfun]

/-- Claim C10: when a tri-state boolean field holds the unknown value
(map_bool returned none), the serializer renders it as the quoted string
containing None, which is distinct from true, false and null; the
fp:multinational_organization field of the concrete example row is
rendered that way inside its entity_data.jsonld text. -/
theorem C10_unknown_serialized_as_None :
    (∀ t, map_bool t = none →
      serializeField (("fp:multinational_organization"), pyOfBool (map_bool t)) =
        ",\n\"fp:multinational_organization\":  \"None\""
      ∧ writeval (pyOfBool (map_bool t)) = "\"None\"")
    ∧ writeval (pyOfBool none) ≠ "true"
    ∧ writeval (pyOfBool none) ≠ "false"
    ∧ writeval (pyOfBool none) ≠ "null"
    ∧ hasSubstr (entity_data_content (mkSupplierRecord exRow))
        ("\"fp:multinational_organization\":  \"None\"") = true := by
  refine ⟨?_, by decide, by decide, by decide, by decide⟩
  intro t ht
  rw [ht]
  exact ⟨by decide, rfl⟩


/-- Witness for C2 amended at the concrete grid built from fooRow. -/
theorem C2_amended_identifier_witness :
    (getsupplierdata (hdr5 ++ [fooRow])).2.map Prod.fst = [("Foo__Bar_Ltd_")] :=
  C2_amended_identifier hdr5 fooRow (by decide) (by decide) (by decide)

/-- Witness for C3 amended at the concrete grid built from exRow. -/
theorem C3_amended_output_witness :
    ∃ c, mksupplierjson (getsupplierdata (hdr5 ++ [exRow])).2 ("out") =
        [(("out" ++ "/" ++ "Acme_Co" ++ "/" ++ "entity_data.jsonld"), c)]
      ∧ SubStr c ("\"rdfs:label\":                     \"Acme Co\"")
      ∧ SubStr c ("\"fp:company_status\":              \"Company_status/Active\"") :=
  C3_amended_output hdr5 exRow ("out") (by decide) (by decide) (by decide) (by decide)

/-- Witness for C5 at a concrete grid and key. -/
theorem C5_record_filter_last_write_wins_witness :
    dlookup ("Acme_Co") (getsupplierdata (hdr5 ++ [exRow])).2 =
      ((((hdr5 ++ [exRow]).drop 5).filter (fun h => decide (QualRow h))).reverse.find?
          (fun h => supplier_id h == "Acme_Co")).map mkSupplierRecord :=
  (C5_record_filter_last_write_wins (hdr5 ++ [exRow])).2.1 ("Acme_Co")

/-- Witness for C6 amended: the concrete host header row is mapped to a
host record. -/
theorem C6_amended_header_skip_witness :
    dlookup (strip (hostHeaderRow.getD 1 (""))) (gethostdata [hostHeaderRow]).2 =
      some (HostRecord.mk (strip (hostHeaderRow.getD 1 ("")))
        (strip (hostHeaderRow.getD 2 ("")))
        (strip (hostHeaderRow.getD 3 ("")))
        (strip (hostHeaderRow.getD 4 ("")))) :=
  C6_amended_header_skip.2 hostHeaderRow (by decide) (by decide)

/-- Witness for C7: deleting a concrete 2-cell row between the header
and a data row leaves the supplier output unchanged. -/
theorem C7_short_rows_skipped_witness :
    getsupplierdata (hdr5 ++ shortRow :: [exRow]) = getsupplierdata (hdr5 ++ [exRow]) :=
  C7_short_rows_skipped.1 hdr5 shortRow [exRow] (by decide) (by decide)

/-- Witness for C10 at the concrete unrecognized token. -/
theorem C10_unknown_serialized_as_None_witness :
    map_bool ("Unsure") = none
    ∧ serializeField (("fp:multinational_organization"), pyOfBool (map_bool ("Unsure"))) =
        ",\n\"fp:multinational_organization\":  \"None\"" :=
  ⟨by decide, (C10_unknown_serialized_as_None.1 ("Unsure") (by decide)).1⟩

end DataUtils
